import Mathlib

/-!
Shallow embedding of the VisoLearn local-interface core
(src/fallback_mode.py, src/app.py, src/visolearn_client.py),
together with theorems settling the specification claims.

Python dicts used as records are embedded as Lean structures, Python
strings as `String` (manipulated through their `List Char` data),
Python lists as `List`, exceptions as `Option`, and the `random`
module as explicit parameters (a numeric draw, or a list of sampled
indices) so every function is a pure function of its inputs.
-/

set_option maxRecDepth 8000

namespace VisoLearn

/-- A checklist entry, embedding the Python dict
`{"detail": str, "identified": bool, "id": int}`. -/
structure Item where
  detail : String
  identified : Bool
  id : Nat
deriving DecidableEq

/-- Default element used by `List.getD` when indexing checklists. -/
def defaultItem : Item := { detail := "", identified := false, id := 0 }

/-- The slice of the session dict read by the chat logic:
`active_session["attempt_count"]` and `active_session["attempt_limit"]`. -/
structure Session where
  attempt_count : Nat
  attempt_limit : Nat
deriving DecidableEq

/-- ASCII embedding of Python `str.lower` on a character list. -/
def lowerL (s : List Char) : List Char := s.map Char.toLower

/-- Auxiliary worker for `pySplit`, carrying the current (reversed) word. -/
def pySplitAux : List Char → List Char → List (List Char)
  | [], acc => if acc = [] then [] else [acc.reverse]
  | c :: cs, acc =>
    if c.isWhitespace then
      if acc = [] then pySplitAux cs [] else acc.reverse :: pySplitAux cs []
    else pySplitAux cs (c :: acc)

/-- Embedding of Python `str.split()` with no argument: split on runs of
whitespace, discarding empty pieces. -/
def pySplit (s : List Char) : List (List Char) := pySplitAux s []

/-- Embedding of the Python substring test `needle in hay`. -/
def pyIn (needle hay : List Char) : Bool :=
  List.isPrefixOf needle hay ||
    match hay with
    | [] => false
    | _ :: t => pyIn needle t

/-- The per-item inner loop of `FallbackMode.process_chat_message`
(src/fallback_mode.py lines 164-171): tokenize the lowered detail text,
and scan its tokens for a token of length > 3 occurring in the lowered
message, stopping at the first hit. -/
def detailMatches (message_lower : List Char) (detail : String) : Bool :=
  (pySplit (lowerL detail.data)).any fun word =>
    decide (3 < word.length) && pyIn word message_lower

/-- One iteration of the checklist-updating loop of
`FallbackMode.process_chat_message` (src/fallback_mode.py lines
158-171): an already-identified item is skipped, the rest are marked
when `detailMatches` fires. -/
def markItem (message_lower : List Char) (item : Item) : Item :=
  if item.identified then item
  else if detailMatches message_lower item.detail then
    { item with identified := true }
  else item

/-- The checklist-updating loop of `FallbackMode.process_chat_message`
(src/fallback_mode.py lines 158-171). -/
def updateChecklist (message : String) (checklist : List Item) : List Item :=
  checklist.map (markItem (lowerL message.data))

/-- The trailing warning appended on the last allowed attempt
(src/fallback_mode.py line 197). -/
def lastAttemptWarning : String :=
  "\n\nThis is your last attempt. After this, we'll move to a new image."

/-- The response-composition block of `FallbackMode.process_chat_message`
(src/fallback_mode.py lines 173-188).  `rchoice` stands for the state of
`random.choice` in the hint branch: the hint picked is the entry at
index `rchoice % length` of the unidentified details. -/
def composeResponse (rchoice : Nat) (updated_checklist : List Item)
    (newly_identified : Nat) : String :=
  if newly_identified > 0 then
    let base := "Great job! You identified " ++ toString newly_identified
      ++ " new detail" ++ (if newly_identified > 1 then "s" else "") ++ "."
    if newly_identified > 1 then
      base ++ " Your observation skills are excellent!"
    else base
  else
    let unidentified :=
      (updated_checklist.filter fun item => !item.identified).map
        fun item => item.detail
    if unidentified ≠ [] then
      let hint_item := unidentified.getD (rchoice % unidentified.length) ""
      "Good try! Can you tell me more about the "
        ++ String.mk (lowerL hint_item.data) ++ "?"
    else
      "Wonderful! You've identified all the details in this image."

/-- The last-attempt block of `FallbackMode.process_chat_message`
(src/fallback_mode.py lines 190-197).  The Python guard
`active_session and active_session.get("attempt_limit")` requires a
session with a truthy (nonzero) stored limit. -/
def addAttemptWarning (active_session : Option Session)
    (updated_checklist : List Item) (response : String) : String :=
  match active_session with
  | none => response
  | some s =>
    if s.attempt_limit ≠ 0 then
      if s.attempt_count + 1 ≥ s.attempt_limit ∧
          (updated_checklist.all fun item => item.identified) = false then
        response ++ lastAttemptWarning
      else response
    else response

/-- Embedding of `FallbackMode.process_chat_message`
(src/fallback_mode.py lines 141-199).

In the source, `updated_checklist = checklist.copy()` is a *shallow*
copy: the subsequent in-place mutation `updated_checklist[i]["identified"]
= True` updates the very dict objects that `checklist` also holds, so by
the time `newly_identified` is computed, `checklist[i]` and
`updated_checklist[i]` are the same (already updated) record.  The
comparison below therefore zips the updated list with itself, which is
what the source actually computes. -/
def process_chat_message (rchoice : Nat) (message : String)
    (checklist : List Item) (active_session : Option Session) :
    String × List Item :=
  let updated_checklist := updateChecklist message checklist
  let newly_identified :=
    ((updated_checklist.zip updated_checklist).filter fun p =>
      p.1.identified && !p.2.identified).length
  (addAttemptWarning active_session updated_checklist
    (composeResponse rchoice updated_checklist newly_identified),
   updated_checklist)

/-- Iterated chat processing: each call is fed the checklist returned by
the previous call, mirrorring `st.session_state.checklist =
updated_checklist` in src/app.py lines 321-328.  Each step carries its
own random draw and session snapshot. -/
def runChat (steps : List (Nat × String × Option Session))
    (checklist : List Item) : List Item :=
  steps.foldl
    (fun cl step => (process_chat_message step.1 step.2.1 cl step.2.2).2)
    checklist

/-! ### Basic lemmas about the matcher -/

theorem pyIn_iff (needle hay : List Char) :
    pyIn needle hay = true ↔ needle <:+: hay := by
  induction hay with
  | nil =>
    simp only [pyIn, List.infix_nil, Bool.or_eq_true,
      List.isPrefixOf_iff_prefix]
    constructor
    · rintro (h | h)
      · simpa using h
      · cases h
    · rintro rfl; left; exact List.nil_prefix
  | cons a t ih =>
    simp only [pyIn, Bool.or_eq_true, List.isPrefixOf_iff_prefix, ih,
      List.infix_cons_iff]

theorem markItem_identified (ml : List Char) (item : Item) :
    (markItem ml item).identified
      = (item.identified || detailMatches ml item.detail) := by
  unfold markItem
  by_cases h : item.identified
  · simp [h]
  · simp only [Bool.not_eq_true] at h
    by_cases h2 : detailMatches ml item.detail
    · simp [h, h2]
    · simp only [Bool.not_eq_true] at h2
      simp [h, h2]

theorem markItem_of_identified (ml : List Char) (item : Item)
    (h : item.identified = true) : markItem ml item = item := by
  simp [markItem, h]

theorem updateChecklist_length (m : String) (cl : List Item) :
    (updateChecklist m cl).length = cl.length := by
  simp [updateChecklist]

theorem updateChecklist_getD (m : String) (cl : List Item) (i : Nat)
    (h : i < cl.length) :
    (updateChecklist m cl).getD i defaultItem
      = markItem (lowerL m.data) (cl.getD i defaultItem) := by
  simp [updateChecklist, List.getD_eq_getElem?_getD, List.getElem?_map,
    List.getElem?_eq_getElem h]

theorem updateChecklist_getD_ge (m : String) (cl : List Item) (i : Nat)
    (h : cl.length ≤ i) :
    (updateChecklist m cl).getD i defaultItem = defaultItem := by
  have : (updateChecklist m cl).length ≤ i := by
    simpa [updateChecklist_length] using h
  simp [List.getD_eq_getElem?_getD, List.getElem?_eq_none this]

theorem process_snd (rchoice : Nat) (m : String) (cl : List Item)
    (s : Option Session) :
    (process_chat_message rchoice m cl s).2 = updateChecklist m cl := rfl

theorem detailMatches_iff (ml : List Char) (detail : String) :
    detailMatches ml detail = true
      ↔ ∃ w ∈ pySplit (lowerL detail.data), 3 < w.length ∧ w <:+: ml := by
  simp only [detailMatches, List.any_eq_true, Bool.and_eq_true,
    decide_eq_true_eq, pyIn_iff]

/-- C3: `FallbackMode.process_chat_message` marks a previously
unidentified item as identified in the returned checklist if and only if
some whitespace-separated token of the item's lowered detail text with
length strictly greater than 3 occurs as a substring of the lowered
utterance; the utterance "look at the shadows and highlights" identifies
the item "Shadows and highlights", while "I see a big red dog"
identifies neither "Animal type" nor "Animal coloring". -/
theorem C3_substring_token_matching :
    (∀ (rchoice : Nat) (msg : String) (cl : List Item)
        (sess : Option Session) (i : Nat),
      (((process_chat_message rchoice msg cl sess).2.getD i
            defaultItem).identified = true
          ∧ (cl.getD i defaultItem).identified = false)
        ↔ ((cl.getD i defaultItem).identified = false
          ∧ ∃ w ∈ pySplit (lowerL (cl.getD i defaultItem).detail.data),
              3 < w.length ∧ w <:+: lowerL msg.data))
    ∧ (process_chat_message 0 "look at the shadows and highlights"
        [⟨"Shadows and highlights", false, 0⟩] none).2
      = [⟨"Shadows and highlights", true, 0⟩]
    ∧ (process_chat_message 0 "I see a big red dog"
        [⟨"Animal type", false, 0⟩, ⟨"Animal coloring", false, 1⟩]
        none).2
      = [⟨"Animal type", false, 0⟩, ⟨"Animal coloring", false, 1⟩] := by
  refine ⟨?_, by decide, by decide⟩
  intro rchoice msg cl sess i
  rw [process_snd]
  by_cases h : i < cl.length
  · rw [updateChecklist_getD _ _ _ h, markItem_identified]
    generalize cl.getD i defaultItem = it
    obtain ⟨dt, idf, idn⟩ := it
    cases idf <;> simp [detailMatches_iff]
  · push_neg at h
    rw [updateChecklist_getD_ge _ _ _ h]
    have hd : (cl.getD i defaultItem) = defaultItem := by
      simp [List.getD_eq_getElem?_getD, List.getElem?_eq_none h]
    rw [hd]
    simp [defaultItem, pySplit, pySplitAux]

/-- C4: once an item is identified it stays identified, both across a
single call of `process_chat_message` and across any iterated sequence
of calls in which each call is fed the checklist returned by the
previous one. -/
theorem C4_identified_monotone :
    (∀ (rchoice : Nat) (msg : String) (cl : List Item)
        (sess : Option Session) (i : Nat),
      (cl.getD i defaultItem).identified = true →
        ((process_chat_message rchoice msg cl sess).2.getD i
          defaultItem).identified = true)
    ∧ (∀ (steps : List (Nat × String × Option Session))
        (cl : List Item) (i : Nat),
      (cl.getD i defaultItem).identified = true →
        ((runChat steps cl).getD i defaultItem).identified = true) := by
  have step : ∀ (rchoice : Nat) (msg : String) (cl : List Item)
      (sess : Option Session) (i : Nat),
      (cl.getD i defaultItem).identified = true →
        ((process_chat_message rchoice msg cl sess).2.getD i
          defaultItem).identified = true := by
    intro rchoice msg cl sess i hid
    rw [process_snd]
    by_cases h : i < cl.length
    · rw [updateChecklist_getD _ _ _ h, markItem_identified, hid]
      simp
    · push_neg at h
      have hd : (cl.getD i defaultItem) = defaultItem := by
        simp [List.getD_eq_getElem?_getD, List.getElem?_eq_none h]
      rw [hd] at hid
      cases hid
  refine ⟨step, ?_⟩
  intro steps
  induction steps with
  | nil => intro cl i hid; simpa [runChat] using hid
  | cons a t ih =>
    intro cl i hid
    have h1 := step a.1 a.2.1 cl a.2.2 i hid
    have : runChat (a :: t) cl
        = runChat t (process_chat_message a.1 a.2.1 cl a.2.2).2 := by
      simp [runChat]
    rw [this]
    exact ih _ i h1

/-- Witness for C4 at a concrete input. -/
theorem C4_identified_monotone_witness :
    ((runChat [(0, "hello", none), (1, "a dog", none)]
        [⟨"Main subject", true, 0⟩]).getD 0 defaultItem).identified
      = true :=
  C4_identified_monotone.2 [(0, "hello", none), (1, "a dog", none)]
    [⟨"Main subject", true, 0⟩] 0 (by decide)

/-! ### The shallow-copy aliasing and the response branches -/

theorem zip_self_filter_eq_nil (l : List Item) :
    ((l.zip l).filter fun p => p.1.identified && !p.2.identified) = [] := by
  induction l with
  | nil => rfl
  | cons a t ih => simp [List.zip_cons_cons, List.filter_cons, ih]

theorem process_fst (rchoice : Nat) (m : String) (cl : List Item)
    (s : Option Session) :
    (process_chat_message rchoice m cl s).1
      = addAttemptWarning s (updateChecklist m cl)
          (composeResponse rchoice (updateChecklist m cl) 0) := by
  simp only [process_chat_message, zip_self_filter_eq_nil, List.length_nil]

theorem greatJob_not_prefix_compose (rchoice : Nat) (upd : List Item)
    (extra : List Char) :
    (("Great job!".data).isPrefixOf
      ((composeResponse rchoice upd 0).data ++ extra)) = false := by
  simp only [composeResponse]
  rw [if_neg (show ¬ (0 : Nat) > 0 by omega)]
  split
  · rfl
  · rfl

theorem greatJob_not_prefix (rchoice : Nat) (sess : Option Session)
    (upd : List Item) :
    (("Great job!".data).isPrefixOf
      (addAttemptWarning sess upd (composeResponse rchoice upd 0)).data)
      = false := by
  have hplain : (("Great job!".data).isPrefixOf
      (composeResponse rchoice upd 0).data) = false := by
    rw [← List.append_nil (composeResponse rchoice upd 0).data]
    exact greatJob_not_prefix_compose rchoice upd []
  cases sess with
  | none => exact hplain
  | some s =>
    simp only [addAttemptWarning]
    split
    · split
      · rw [String.data_append]
        exact greatJob_not_prefix_compose rchoice upd _
      · exact hplain
    · exact hplain

theorem lastAttemptWarning_not_suffix_hint (x : String) :
    ((lastAttemptWarning.data).isSuffixOf
      ("Good try! Can you tell me more about the " ++ x ++ "?").data)
      = false := by
  rw [Bool.eq_false_iff]
  intro hsuf
  rw [List.isSuffixOf_iff_suffix] at hsuf
  obtain ⟨t, ht⟩ := hsuf
  have h1 : ("Good try! Can you tell me more about the " ++ x ++ "?").data.getLast?
      = some '?' := by
    show (("Good try! Can you tell me more about the ".data ++ x.data)
      ++ ['?']).getLast? = some '?'
    exact List.getLast?_concat _
  rw [← ht, List.getLast?_append] at h1
  rw [show lastAttemptWarning.data.getLast? = some '.' from rfl,
    Option.or_some] at h1
  cases h1

theorem lastAttemptWarning_not_suffix_base (rchoice : Nat)
    (upd : List Item) :
    ((lastAttemptWarning.data).isSuffixOf
      (composeResponse rchoice upd 0).data) = false := by
  simp only [composeResponse]
  rw [if_neg (show ¬ (0 : Nat) > 0 by omega)]
  split
  · exact lastAttemptWarning_not_suffix_hint _
  · decide

/-- C1: because `checklist.copy()` is a shallow copy, `newly_identified`
is always computed as 0, so `process_chat_message` never returns the
affirming "Great job! ..." acknowledgment; at the failing input the item
is newly marked identified, yet the response is the completion message
instead of the affirming one the claim (and the source's own
`newly_identified` logic) calls for. -/
theorem C1_affirming_never_produced :
    (∀ (rchoice : Nat) (msg : String) (cl : List Item)
        (sess : Option Session),
      (("Great job!".data).isPrefixOf
        (process_chat_message rchoice msg cl sess).1.data) = false)
    ∧ process_chat_message 0 "the shadows and highlights"
        [⟨"Shadows and highlights", false, 0⟩] none
      = ("Wonderful! You've identified all the details in this image.",
         [⟨"Shadows and highlights", true, 0⟩]) := by
  refine ⟨?_, by decide⟩
  intro rchoice msg cl sess
  rw [process_fst]
  exact greatJob_not_prefix _ _ _

/-- C8 (amended): with a session whose stored limit is nonzero, the
last-attempt warning is appended exactly when
`attempt_count + 1 ≥ attempt_limit` (not only when `attempt_count`
equals `attempt_limit - 1`) and not all items are identified after the
update. -/
theorem C8_last_attempt_warning_amended :
    ∀ (rchoice : Nat) (msg : String) (cl : List Item) (s : Session),
      s.attempt_limit ≠ 0 →
      (((lastAttemptWarning.data).isSuffixOf
          (process_chat_message rchoice msg cl (some s)).1.data) = true
        ↔ (s.attempt_limit ≤ s.attempt_count + 1
            ∧ ((process_chat_message rchoice msg cl (some s)).2.all
                fun item => item.identified) = false)) := by
  intro rchoice msg cl s hs
  rw [process_fst, process_snd]
  simp only [addAttemptWarning]
  rw [if_pos hs]
  by_cases hcond : s.attempt_count + 1 ≥ s.attempt_limit ∧
      ((updateChecklist msg cl).all fun item => item.identified) = false
  · rw [if_pos hcond]
    constructor
    · intro _; exact ⟨hcond.1, hcond.2⟩
    · intro _
      rw [String.data_append, List.isSuffixOf_iff_suffix]
      exact List.suffix_append _ _
  · rw [if_neg hcond]
    constructor
    · intro h
      rw [lastAttemptWarning_not_suffix_base] at h
      cases h
    · intro h
      exact absurd ⟨h.1, h.2⟩ hcond

/-- Witness for the amended C8 at a concrete input: one attempt left
(count 2 of limit 3), item still unidentified, warning appended. -/
theorem C8_last_attempt_warning_amended_witness :
    ((lastAttemptWarning.data).isSuffixOf
      (process_chat_message 0 "zzzz" [⟨"Background color", false, 0⟩]
        (some ⟨2, 3⟩)).1.data) = true :=
  (C8_last_attempt_warning_amended 0 "zzzz"
    [⟨"Background color", false, 0⟩] ⟨2, 3⟩ (by decide)).mpr (by decide)

/-- C8 counterexample: with attempt_count = 3 and attempt_limit = 3 the
source appends the warning (its test is `attempt_count + 1 >=
attempt_limit`), although 3 is not `attempt_limit - 1 = 2`, refuting the
"when and only when attempt_count equals attempt_limit - 1" claim. -/
theorem C8_counterexample :
    ((lastAttemptWarning.data).isSuffixOf
      (process_chat_message 0 "zzzz" [⟨"Background color", false, 0⟩]
        (some ⟨3, 3⟩)).1.data) = true
    ∧ (3 : Nat) ≠ 3 - 1 := by
  exact ⟨by decide, by decide⟩

/-! ### Session tracking and progress (src/app.py) -/

/-- The attempt-count update of the app's submit handler (src/app.py
lines 334-340, and identically lines 371-377): increment the count
unless it is already at the limit. -/
def recordAttempt (attempt_count attempt_limit : Nat) : Nat :=
  if attempt_count < attempt_limit then attempt_count + 1 else attempt_count

/-- The terminal-condition display (src/app.py lines 628-632): the
"maximum attempts reached, next interaction moves to a new image"
warning is shown when the count has reached the limit and some checklist
item is still unidentified. -/
def maxAttemptsWarningShown (attempt_count attempt_limit : Nat)
    (checklist : List Item) : Bool :=
  decide (attempt_count ≥ attempt_limit)
    && !(checklist.all fun item => item.identified)

/-- Count of identified items (src/app.py line 300). -/
def identifiedCount (checklist : List Item) : Nat :=
  (checklist.filter fun item => item.identified).length

/-- The percentage computed in `update_progress` (src/app.py line 301),
with Python float arithmetic embedded as exact rationals. -/
def progressPercentage (checklist : List Item) : ℚ :=
  if checklist.length > 0 then
    (identifiedCount checklist : ℚ) / (checklist.length : ℚ) * 100
  else 0

/-- Round to the nearest integer, ties to even, the rule used by Python
float formatting. -/
def roundHalfEven (q : ℚ) : ℤ :=
  let f := ⌊q⌋
  if q - f < 1/2 then f
  else if (1 : ℚ)/2 < q - f then f + 1
  else if Even f then f else f + 1

/-- One-decimal rendering of a nonnegative rational, modelling the
Python format specifier `:.1f` applied to the percentage. -/
def fmt1 (q : ℚ) : String :=
  let n := roundHalfEven (10 * q)
  toString (n / 10) ++ "." ++ toString (n % 10)

/-- Embedding of `update_progress` (src/app.py lines 284-308).  The
progress markup optionally fetched from the API is never used by the
source: the returned string always comes from the local calculation, so
the function is a pure function of the checklist.  An empty checklist
takes the early return on line 286. -/
def update_progress (checklist : List Item) : String :=
  if checklist = [] then "No active session or no details to identify."
  else
    "Progress: " ++ toString (identifiedCount checklist) ++ "/"
      ++ toString checklist.length
      ++ " details (" ++ fmt1 (progressPercentage checklist) ++ "%)"

/-- C5: starting from attempt_count 0 with limit L ≥ 1, N recorded
attempts leave the count at min N L, and a single recorded attempt from
any count ≤ L never decreases the count and never pushes it past the
limit. -/
theorem C5_attempt_saturation :
    ∀ (N L : Nat), 1 ≤ L →
      ((fun c => recordAttempt c L)^[N] 0 = min N L
        ∧ ∀ c : Nat, c ≤ L →
            c ≤ recordAttempt c L ∧ recordAttempt c L ≤ L) := by
  intro N L _
  constructor
  · induction N with
    | zero => simp
    | succ n ih =>
      rw [Function.iterate_succ_apply', ih]
      unfold recordAttempt
      split <;> omega
  · intro c _
    unfold recordAttempt
    split <;> omega

/-- Witness for C5 at N = 5, L = 3. -/
theorem C5_attempt_saturation_witness :
    (fun c => recordAttempt c 3)^[5] 0 = min 5 3 :=
  (C5_attempt_saturation 5 3 (by decide)).1

/-- C6: the terminal warning is reported exactly when the attempt count
has reached the limit and some checklist item is unidentified; it is
reported for limit 3, count 3 over a partially identified checklist, and
never reported when every item is identified. -/
theorem C6_exhaustion_condition :
    (∀ (c L : Nat) (cl : List Item),
      maxAttemptsWarningShown c L cl = true
        ↔ (L ≤ c ∧ ∃ item ∈ cl, item.identified = false))
    ∧ maxAttemptsWarningShown 3 3
        [⟨"Main subject", true, 0⟩, ⟨"Background color", false, 1⟩]
      = true
    ∧ (∀ c : Nat, maxAttemptsWarningShown c 3
        [⟨"Main subject", true, 0⟩, ⟨"Background color", true, 1⟩]
      = false) := by
  refine ⟨?_, by decide, ?_⟩
  · intro c L cl
    simp only [maxAttemptsWarningShown, Bool.and_eq_true,
      decide_eq_true_eq, Bool.not_eq_true', ge_iff_le]
    rw [Bool.eq_false_iff, Ne, List.all_eq_true]
    push_neg
    simp [Bool.not_eq_true]
  · intro c
    simp [maxAttemptsWarningShown]

/-- C7: `update_progress` is a pure function of the checklist; a
checklist of 4 items with 1 identified reports identified count 1, total
4, percentage 25.0; the empty checklist takes the no-data early return
and the percentage formula yields 0 there instead of dividing by
zero. -/
theorem C7_progress_reporting :
    update_progress
        [⟨"Main subject", true, 0⟩, ⟨"Background color", false, 1⟩,
         ⟨"Color scheme", false, 2⟩, ⟨"Texture patterns", false, 3⟩]
      = "Progress: 1/4 details (25.0%)"
    ∧ identifiedCount
        [⟨"Main subject", true, 0⟩, ⟨"Background color", false, 1⟩,
         ⟨"Color scheme", false, 2⟩, ⟨"Texture patterns", false, 3⟩] = 1
    ∧ progressPercentage
        [⟨"Main subject", true, 0⟩, ⟨"Background color", false, 1⟩,
         ⟨"Color scheme", false, 2⟩, ⟨"Texture patterns", false, 3⟩] = 25
    ∧ update_progress [] = "No active session or no details to identify."
    ∧ progressPercentage [] = 0 := by
  have hc : identifiedCount
      [⟨"Main subject", true, 0⟩, ⟨"Background color", false, 1⟩,
       ⟨"Color scheme", false, 2⟩, ⟨"Texture patterns", false, 3⟩] = 1 := by
    decide
  have hper : progressPercentage
      [⟨"Main subject", true, 0⟩, ⟨"Background color", false, 1⟩,
       ⟨"Color scheme", false, 2⟩, ⟨"Texture patterns", false, 3⟩] = 25 := by
    simp only [progressPercentage, hc]
    norm_num
  have hfl : ⌊(250 : ℚ)⌋ = 250 := by norm_num
  have hfmt : fmt1 25 = "25.0" := by
    have h250 : (10 : ℚ) * 25 = 250 := by norm_num
    simp only [fmt1, h250, roundHalfEven, hfl]
    rw [if_pos (by push_cast; norm_num)]
    rfl
  refine ⟨?_, hc, hper, rfl, rfl⟩
  simp only [update_progress, hc, hper, hfmt]
  rw [if_neg (by decide)]
  rfl

/-! ### Checklist markup encoding and decoding
(src/fallback_mode.py `create_html_checklist`,
src/app.py `extract_checklist_from_html`) -/

/-- Embedding of `FallbackMode.create_html_checklist`
(src/fallback_mode.py lines 201-224). -/
def create_html_checklist (checklist : List Item) : String :=
  let html := "<div id=\"checklist-container\" style=\"background-color: #000000; color: #ffffff; padding: 15px; border-radius: 8px;\">"
  let html := html ++ "<style>.checklist-item \x7bdisplay: flex; align-items: center; margin-bottom: 10px; padding: 8px; border-radius: 5px; transition: background-color 0.3s;\x7d "
  let html := html ++ ".identified \x7bbackground-color: #1e4620; text-decoration: line-through; color: #7fff7f;\x7d "
  let html := html ++ ".not-identified \x7bbackground-color: #222222; color: #ffffff;\x7d "
  let html := html ++ ".checkmark \x7bmargin-right: 10px; font-size: 1.2em;\x7d</style>"
  let html := checklist.foldl (fun html item =>
    let css_class := if item.identified then "identified" else "not-identified"
    let checkmark := if item.identified then "✅" else "❌"
    html ++ "<div class=\"checklist-item " ++ css_class ++ "\">"
      ++ "<span class=\"checkmark\">" ++ checkmark ++ "</span>"
      ++ "<span>" ++ item.detail ++ "</span>"
      ++ "</div>") html
  html ++ "</div>"

/-- Python regex `\s`: the characters matched by the whitespace class. -/
def reWS (c : Char) : Bool :=
  c == ' ' || c == '\t' || c == '\n' || c == '\r' || c == '\x0b' || c == '\x0c'

/-- Consume a literal segment of the regex pattern, or fail. -/
def dropLit (pat s : List Char) : Option (List Char) :=
  match pat, s with
  | [], rest => some rest
  | _ :: _, [] => none
  | p :: ps, c :: cs => if p = c then dropLit ps cs else none

/-- Consume the longest run of characters different from `bad`,
returning the run and the rest: the behaviour of a greedy negated
character class `[^bad]*`. -/
def takeNon (bad : Char) : List Char → List Char × List Char
  | [] => ([], [])
  | c :: cs =>
    if c = bad then ([], c :: cs)
    else
      let r := takeNon bad cs
      (c :: r.1, r.2)

/-- A capturing group `([^bad]+)`: like `takeNon` but the run must be
nonempty. -/
def matchGroup (bad : Char) (s : List Char) :
    Option (List Char × List Char) :=
  let r := takeNon bad s
  if r.1 = [] then none else some r

/-- One attempted match, at the start of `s`, of the pattern used in
`extract_checklist_from_html` (src/app.py line 89):
`<div class="checklist-item ([^"]+)">\s*<span class="checkmark">([^<]+)
</span>\s*<span>([^<]+)</span>\s*</div>`.
Because each negated class excludes the character that must follow it,
and `\s*` is followed by `<`, the regex is matched without backtracking:
each greedy run is forced.  Returns the three captured groups and the
remaining input. -/
def matchChecklistItem (s : List Char) :
    Option ((List Char × List Char × List Char) × List Char) :=
  (dropLit ("<div class=\"checklist-item ".data) s).bind fun s1 =>
  (matchGroup '"' s1).bind fun g1 =>
  (dropLit ("\">".data) g1.2).bind fun s2 =>
  (dropLit ("<span class=\"checkmark\">".data) (s2.dropWhile reWS)).bind
    fun s3 =>
  (matchGroup '<' s3).bind fun g2 =>
  (dropLit ("</span>".data) g2.2).bind fun s4 =>
  (dropLit ("<span>".data) (s4.dropWhile reWS)).bind fun s5 =>
  (matchGroup '<' s5).bind fun g3 =>
  (dropLit ("</span>".data) g3.2).bind fun s6 =>
  (dropLit ("</div>".data) (s6.dropWhile reWS)).map fun s7 =>
  ((g1.1, g2.1, g3.1), s7)

/-- The scan of `re.findall`: leftmost non-overlapping matches, resuming
after the end of each match.  The fuel argument bounds the number of
steps; every step consumes at least one character, so `length + 1` steps
suffice. -/
def reFindAllAux : Nat → List Char →
    List (List Char × List Char × List Char)
  | 0, _ => []
  | fuel + 1, s =>
    match matchChecklistItem s with
    | some (g, rest) => g :: reFindAllAux fuel rest
    | none =>
      match s with
      | [] => []
      | _ :: t => reFindAllAux fuel t

/-- All matches of the checklist-item pattern, in document order. -/
def reFindAllChecklistItems (s : List Char) :
    List (List Char × List Char × List Char) :=
  reFindAllAux (s.length + 1) s

/-- Embedding of `extract_checklist_from_html` (src/app.py lines 80-97).
The decoded `identified` flag is the Python substring test
`"identified" in css_class`. -/
def extract_checklist_from_html (html_content : String) : List Item :=
  if html_content = "" then []
  else
    (reFindAllChecklistItems html_content.data).enum.map fun p =>
      { detail := String.mk p.2.2.2,
        identified := pyIn ("identified".data) p.2.1,
        id := p.1 }

/-- C2: decoding the markup produced by `create_html_checklist` yields
one item per original item in document order with the same text and
sequential ids, but the decoder's substring test `"identified" in
css_class` is also true for the class "not-identified", so an
unidentified item decodes with identified = true, refuting the claimed
preservation of the identified boolean. -/
theorem C2_roundtrip_flag_not_preserved :
    extract_checklist_from_html (create_html_checklist
        [⟨"Main subject", true, 0⟩, ⟨"Background color", false, 1⟩])
      = [⟨"Main subject", true, 0⟩, ⟨"Background color", true, 1⟩]
    ∧ pyIn ("identified".data) ("not-identified".data) = true := by
  exact ⟨by decide, by decide⟩

/-! ### Placeholder checklist generation
(src/fallback_mode.py `generate_placeholder_checklist`) -/

/-- The generic detail pool (src/fallback_mode.py lines 92-100). -/
def generic_details : List String :=
  ["Background color", "Main subject", "Foreground elements",
   "Lighting effects", "Shadows and highlights", "Texture patterns",
   "Color scheme"]

/-- Topic bucket for animals (src/fallback_mode.py line 109). -/
def animal_details : List String :=
  ["Animal type", "Animal posture", "Animal coloring",
   "Habitat elements", "Animal features"]

/-- Topic bucket for people (src/fallback_mode.py line 113). -/
def people_details : List String :=
  ["Person's expression", "Clothing items", "Posture or pose",
   "Hair style", "Action being performed"]

/-- Topic bucket for nature (src/fallback_mode.py line 117). -/
def nature_details : List String :=
  ["Type of landscape", "Plant life", "Weather conditions",
   "Time of day", "Natural features"]

/-- Topic bucket for objects (src/fallback_mode.py line 121). -/
def object_details : List String :=
  ["Object shape", "Object purpose", "Object material",
   "Object size", "Object color"]

/-- The topic-keyword bucketing (src/fallback_mode.py lines 103-121):
lower and split the topic, then test keyword membership bucket by
bucket.  The Python guard `topic and topic != "Unknown"` requires a
nonempty topic different from "Unknown". -/
def topic_details (topic : String) : List String :=
  if topic ≠ "" ∧ topic ≠ "Unknown" then
    let topic_words := pySplit (lowerL topic.data)
    if ["animal", "animals", "pet", "pets", "wildlife"].any
        (fun w => topic_words.contains w.data) then animal_details
    else if ["person", "people", "child", "children", "family"].any
        (fun w => topic_words.contains w.data) then people_details
    else if ["nature", "landscape", "tree", "forest", "mountain",
        "ocean"].any (fun w => topic_words.contains w.data) then
      nature_details
    else if ["object", "toy", "item", "tool"].any
        (fun w => topic_words.contains w.data) then object_details
    else []
  else []

/-- The combined pool (src/fallback_mode.py line 124). -/
def all_details (topic : String) : List String :=
  topic_details topic ++ generic_details

/-- Embedding of `generate_placeholder_checklist` (src/fallback_mode.py
lines 86-139).  The randomness is made explicit: `k` is the draw of
`random.randint(5, 8)` (so 5 ≤ k ≤ 8), and `sampleIdxs` is the list of
pairwise-distinct in-range positions drawn by
`random.sample(all_details, num_details)`, of length
`min all_details.length k`. -/
def generate_placeholder_checklist (topic : String) (k : Nat)
    (sampleIdxs : List Nat) : List Item :=
  let alld := all_details topic
  let num_details := min alld.length k
  let selected_details :=
    (sampleIdxs.take num_details).map fun i => alld.getD i ""
  selected_details.enum.map fun p =>
    { detail := p.2, identified := false, id := p.1 }

theorem all_details_nodup (topic : String) :
    (all_details topic).Nodup := by
  simp only [all_details, topic_details]
  split
  · split
    · decide
    · split
      · decide
      · split
        · decide
        · split
          · decide
          · decide
  · decide

theorem all_details_length_ge (topic : String) :
    7 ≤ (all_details topic).length := by
  have h : generic_details.length = 7 := by decide
  simp only [all_details, List.length_append, h]
  omega

/-- C9: for every topic and random state (a draw 5 ≤ k ≤ 8 and a sample
of distinct in-range positions of the required size), the generated
checklist has between 5 and 8 items, pairwise-distinct detail texts
drawn from the bucketed pool plus the generic attributes, sequential ids
0..n-1 in selection order, and every identified flag false. -/
theorem C9_placeholder_checklist_generation :
    ∀ (topic : String) (k : Nat) (idxs : List Nat),
      5 ≤ k → k ≤ 8 → idxs.Nodup →
      (∀ i ∈ idxs, i < (all_details topic).length) →
      idxs.length = min (all_details topic).length k →
      (5 ≤ (generate_placeholder_checklist topic k idxs).length
        ∧ (generate_placeholder_checklist topic k idxs).length ≤ 8
        ∧ ((generate_placeholder_checklist topic k idxs).map
            (fun item => item.detail)).Nodup
        ∧ (∀ item ∈ generate_placeholder_checklist topic k idxs,
            item.detail ∈ all_details topic ∧ item.identified = false)
        ∧ (generate_placeholder_checklist topic k idxs).map
            (fun item => item.id)
          = List.range
              (generate_placeholder_checklist topic k idxs).length) := by
  intro topic k idxs hk5 hk8 hnd hbound hlen
  have htake : idxs.take (min (all_details topic).length k) = idxs := by
    rw [← hlen, List.take_length]
  have hgen : generate_placeholder_checklist topic k idxs
      = ((idxs.map fun i => (all_details topic).getD i "").enum.map
          fun p =>
            ({ detail := p.2, identified := false, id := p.1 } : Item)) := by
    simp only [generate_placeholder_checklist, htake]
  have hlength : (generate_placeholder_checklist topic k idxs).length
      = idxs.length := by
    rw [hgen]
    simp [List.enum_length]
  have hdetail : (generate_placeholder_checklist topic k idxs).map
      (fun item => item.detail)
      = idxs.map fun i => (all_details topic).getD i "" := by
    rw [hgen, List.map_map]
    have hcomp : ((fun item : Item => item.detail) ∘
        (fun p : Nat × String =>
          ({ detail := p.2, identified := false, id := p.1 } : Item)))
        = Prod.snd := rfl
    rw [hcomp, List.enum_map_snd]
  have hids : (generate_placeholder_checklist topic k idxs).map
      (fun item => item.id) = List.range idxs.length := by
    rw [hgen, List.map_map]
    have hcomp : ((fun item : Item => item.id) ∘
        (fun p : Nat × String =>
          ({ detail := p.2, identified := false, id := p.1 } : Item)))
        = Prod.fst := rfl
    rw [hcomp, List.enum_map_fst, List.length_map]
  have hdsl := all_details_length_ge topic
  refine ⟨by omega, by omega, ?_, ?_, by rw [hids, hlength]⟩
  · rw [hdetail]
    refine List.Nodup.map_on ?_ hnd
    intro x hx y hy hxy
    have hx' := hbound x hx
    have hy' := hbound y hy
    rw [List.getD_eq_getElem _ _ hx', List.getD_eq_getElem _ _ hy'] at hxy
    have h := (all_details_nodup topic).get_inj_iff
      (i := ⟨x, hx'⟩) (j := ⟨y, hy'⟩)
    simp only [List.get_eq_getElem] at h
    exact congrArg Fin.val (h.mp hxy)
  · intro item hitem
    rw [hgen] at hitem
    simp only [List.mem_map] at hitem
    obtain ⟨p, hp, rfl⟩ := hitem
    refine ⟨?_, rfl⟩
    have hsnd : p.2 ∈ idxs.map fun i => (all_details topic).getD i "" := by
      have h2 := List.mem_map_of_mem Prod.snd hp
      rwa [List.enum_map_snd] at h2
    simp only [List.mem_map] at hsnd
    obtain ⟨i, hi, hfi⟩ := hsnd
    have hi' := hbound i hi
    rw [← hfi, List.getD_eq_getElem _ _ hi']
    exact List.getElem_mem _

/-- Witness for C9 on the topic "farm animals" with draw 6 and sample
positions [0, 2, 4, 6, 8, 10] of the 12-element animal pool. -/
theorem C9_placeholder_checklist_generation_witness :
    ((generate_placeholder_checklist "farm animals" 6
        [0, 2, 4, 6, 8, 10]).map (fun item => item.detail)).Nodup :=
  (C9_placeholder_checklist_generation "farm animals" 6 [0, 2, 4, 6, 8, 10]
    (by decide) (by decide) (by decide) (by decide) (by decide)).2.2.1

/-! ### Data-URL processing (src/visolearn_client.py `process_data_url`) -/

/-- Value of a character in the standard base64 alphabet, if any. -/
def b64Val (c : Char) : Option Nat :=
  if 'A' ≤ c ∧ c ≤ 'Z' then some (c.toNat - 'A'.toNat)
  else if 'a' ≤ c ∧ c ≤ 'z' then some (c.toNat - 'a'.toNat + 26)
  else if '0' ≤ c ∧ c ≤ '9' then some (c.toNat - '0'.toNat + 52)
  else if c = '+' then some 62
  else if c = '/' then some 63
  else none

/-- Decode a run of base64 sextet groups into byte values; only the
final group may carry `=` padding.  Returns none on a leftover partial
group or misplaced padding, the cases where binascii raises its
incorrect-padding error. -/
def b64Groups : List Char → Option (List Nat)
  | [] => some []
  | [a, b, '=', '='] =>
    match b64Val a, b64Val b with
    | some va, some vb => some [va * 4 + vb / 16]
    | _, _ => none
  | [a, b, c, '='] =>
    match b64Val a, b64Val b, b64Val c with
    | some va, some vb, some vc =>
      some [va * 4 + vb / 16, vb % 16 * 16 + vc / 4]
    | _, _, _ => none
  | a :: b :: c :: d :: rest =>
    match b64Val a, b64Val b, b64Val c, b64Val d with
    | some va, some vb, some vc, some vd =>
      (b64Groups rest).map fun bs =>
        (va * 4 + vb / 16) :: (vb % 16 * 16 + vc / 4)
          :: (vc % 4 * 64 + vd) :: bs
    | _, _, _, _ => none
  | _ => none

/-- Embedding of Python `base64.b64decode` applied to a str payload: the
text must be ASCII; characters outside the alphabet other than `=` are
discarded; what remains must be full sextet groups with valid final
padding, otherwise the binascii error propagates (none here). -/
def b64decode (payload : List Char) : Option (List Nat) :=
  if payload.all (fun c => c.toNat < 128) then
    b64Groups (payload.filter fun c => (b64Val c).isSome || c == '=')
  else none

/-- Embedding of Python `str.split(",")`. -/
def splitComma : List Char → List (List Char)
  | [] => [[]]
  | c :: cs =>
    if c = ',' then [] :: splitComma cs
    else
      match splitComma cs with
      | h :: r => (c :: h) :: r
      | [] => [[c]]

/-- Embedding of `VisoLearnClient.process_data_url`
(src/visolearn_client.py lines 287-310).  The external image decoder
`PIL.Image.open` is abstracted as the parameter `imageOpen`, returning
none where PIL would raise.  The Python guard `data_url and
data_url.startswith("data:image")` rejects None and the empty string;
`data_url.split(",")[1]` takes the text between the first and second
comma, raising IndexError (caught, hence none) when there is no comma;
the surrounding try/except turns every raised exception into None. -/
def process_data_url {Img : Type} (imageOpen : List Nat → Option Img)
    (data_url : Option String) : Option Img :=
  match data_url with
  | none => none
  | some s =>
    if s ≠ "" ∧ ("data:image".data).isPrefixOf s.data then
      match splitComma s.data with
      | _ :: payload :: _ => (b64decode payload).bind imageOpen
      | _ => none
    else none

theorem splitComma_no_comma (l : List Char) (h : ',' ∉ l) :
    splitComma l = [l] := by
  induction l with
  | nil => rfl
  | cons c cs ih =>
    simp only [List.mem_cons, not_or] at h
    rw [splitComma, if_neg (fun hc => h.1 hc.symm)]
    rw [ih h.2]

theorem splitComma_append (a b : List Char) (ha : ',' ∉ a) :
    splitComma (a ++ ',' :: b) = a :: splitComma b := by
  induction a with
  | nil =>
    show splitComma (',' :: b) = [] :: splitComma b
    rw [splitComma, if_pos rfl]
  | cons c cs ih =>
    simp only [List.mem_cons, not_or] at ha
    show splitComma (c :: (cs ++ ',' :: b)) = (c :: cs) :: splitComma b
    rw [splitComma, if_neg (fun hc => ha.1 hc.symm), ih ha.2]

/-- C10: `process_data_url` is total (never raises): it returns none on
None, on any string not starting with "data:image" (including the empty
string and plain URLs), and on a data URI without a comma; on a
well-formed data URI it returns exactly what decoding the base64 payload
and opening the image yields — some image on success, none when the
payload or the image bytes cannot be decoded. -/
theorem C10_process_data_url_total :
    ∀ (Img : Type) (imageOpen : List Nat → Option Img),
      process_data_url imageOpen none = none
      ∧ (∀ s : String,
          (("data:image".data).isPrefixOf s.data) = false →
            process_data_url imageOpen (some s) = none)
      ∧ (process_data_url imageOpen (some "") = none
        ∧ process_data_url imageOpen
            (some "https://example.com/pic.png") = none
        ∧ process_data_url imageOpen (some "data:image/png;base64") = none)
      ∧ (∀ (mime payload : String), ',' ∉ mime.data → ',' ∉ payload.data →
          process_data_url imageOpen
              (some ("data:image/" ++ mime ++ ";base64," ++ payload))
            = (b64decode payload.data).bind imageOpen) := by
  intro Img imageOpen
  refine ⟨rfl, ?_, ⟨?_, ?_, ?_⟩, ?_⟩
  · intro s hpre
    simp only [process_data_url]
    rw [if_neg]
    intro hc
    have h2 := hc.2
    rw [hpre] at h2
    cases h2
  · simp [process_data_url]
  · simp only [process_data_url]
    rw [if_neg]
    intro hc
    cases hc.2
  · simp only [process_data_url]
    rw [if_pos ⟨by decide, rfl⟩]
    rfl
  · intro mime payload hmime hpayload
    have hdata : ("data:image/" ++ mime ++ ";base64," ++ payload).data
        = "data:image/".data
            ++ (mime.data ++ (";base64".data ++ (',' :: payload.data))) := by
      simp only [String.data_append, List.append_assoc]
      rfl
    have hne : ("data:image/" ++ mime ++ ";base64," ++ payload) ≠ "" := by
      intro h
      have h2 := congrArg String.data h
      rw [hdata] at h2
      cases h2
    have hpre : ("data:image".data).isPrefixOf
        ("data:image/" ++ mime ++ ";base64," ++ payload).data = true := by
      rw [hdata]
      rfl
    simp only [process_data_url]
    rw [if_pos ⟨hne, hpre⟩, hdata]
    have hassoc : "data:image/".data
        ++ (mime.data ++ (";base64".data ++ (',' :: payload.data)))
        = ("data:image/".data ++ (mime.data ++ ";base64".data))
            ++ ',' :: payload.data := by
      simp [List.append_assoc]
    rw [hassoc, splitComma_append _ _ ?notin,
      splitComma_no_comma _ hpayload]
    case notin =>
      simp only [List.mem_append, not_or]
      exact ⟨by decide, hmime, by decide⟩

/-- Witness for C10: a one-byte PNG-style payload "QQ==" decodes to byte
65 and is handed to the abstract image opener. -/
theorem C10_process_data_url_total_witness :
    process_data_url (fun bs => some bs)
        (some ("data:image/" ++ "png" ++ ";base64," ++ "QQ=="))
      = some [65] := by
  rw [(C10_process_data_url_total (List Nat) (fun bs => some bs)).2.2.2
    "png" "QQ==" (by decide) (by decide)]
  decide

end VisoLearn
